import Mathlib

/-!
Shallow embedding of the task-to-backend selection and orchestration policy
engine of the gh-bot repository, as expressed by the decision logic in
`src/tests/test_ai_model_selection.py` (function `simulate_model_selection`,
which mirrors `pickModelForTask` from `ai_models.ts`) and
`src/tests/test_orchestrator.py` (language detection and cache helpers).
Machine integers are modelled as `Int`, confidences as `ℚ`.
-/

namespace GhBot

/-! Backend identifiers, mirroring the `self.models` dictionary and the
policy constants of `simulate_model_selection`. -/

def QWEN_CODER_32B : String := "@cf/qwen/qwen2.5-coder-32b-instruct"

def DEEPSEEK_R1_32B : String := "@cf/deepseek-ai/deepseek-r1-distill-qwen-32b"

def LLAMA4_SCOUT_17B : String := "@cf/meta/llama-4-scout-17b-16e-instruct"

def LLAMA32_3B : String := "@cf/meta/llama-3.2-3b-instruct"

def MISTRAL_7B_V01 : String := "@cf/mistral/mistral-7b-instruct-v0.1"

def GPT_OSS_120B : String := "@cf/openai/gpt-oss-120b"

def LLAMA33_70B_FAST : String := "@cf/meta/llama-3.3-70b-instruct-fp8-fast"

/-- Default model, `self.models['DEFAULT']` in the test suite. -/
def DEFAULT_MODEL : String := QWEN_CODER_32B

def SMALL_PR_LINES : Int := 300

def LARGE_PR_FILES : Int := 5

/-- Models that go through an async queue (`ASYNC_QUEUE_MODELS`). -/
def ASYNC_QUEUE_MODELS : List String :=
  [LLAMA4_SCOUT_17B, GPT_OSS_120B, LLAMA33_70B_FAST]

/-- Very-long-context capable models (`VERY_LONG_CTX_MODELS`). -/
def VERY_LONG_CTX_MODELS : List String :=
  [LLAMA4_SCOUT_17B, GPT_OSS_120B, LLAMA32_3B]

/-- Head of `VERY_LONG_CTX_MODELS`, the element selected by index 0 in the
Python code. -/
def veryLongCtxHead : String := VERY_LONG_CTX_MODELS.headD DEFAULT_MODEL

/-- Signals extracted from the `inputs` dict by `simulate_model_selection`;
each field default is the `.get(..., default)` default of the Python code. -/
structure Signals where
  diffLinesChanged : Int := 0
  filesChanged : Int := 0
  hasDesignDocsOrImages : Bool := false
  needsVeryLongContext : Bool := false
  needReasoningDepth : Bool := false
  budgetSensitive : Bool := false
  lowLatencyPreferred : Bool := false
deriving Repr, DecidableEq

/-- Python: `small_pr = diff_lines > 0 and diff_lines < SMALL_PR_LINES`. -/
def smallPr (inputs : Signals) : Prop :=
  inputs.diffLinesChanged > 0 ∧ inputs.diffLinesChanged < SMALL_PR_LINES

instance (inputs : Signals) : Decidable (smallPr inputs) := by
  unfold smallPr; exact inferInstance

/-- Python: `large_or_multi = (not small_pr and (diff_lines >= SMALL_PR_LINES
or files_changed >= LARGE_PR_FILES)) or has_images or needs_long_context`. -/
def largeOrMulti (inputs : Signals) : Prop :=
  (¬ smallPr inputs ∧
    (inputs.diffLinesChanged ≥ SMALL_PR_LINES ∨ inputs.filesChanged ≥ LARGE_PR_FILES)) ∨
  inputs.hasDesignDocsOrImages = true ∨ inputs.needsVeryLongContext = true

instance (inputs : Signals) : Decidable (largeOrMulti inputs) := by
  unfold largeOrMulti smallPr; exact inferInstance

/-- Intermediate selection state: `primary`, `fallback` (`None` until a branch
assigns it) and the `rationale` list built by the branch rules. -/
structure Selection where
  primary : String
  fallback : Option String
  rationale : List String
deriving Repr, DecidableEq

/-- Branch rules of `simulate_model_selection`: the `if task == ...` chain
that picks `primary`, `fallback` and the first rationale entry.  The
`deep_audit` branch folds the Python post-assignment
`if needs_long_context: fallback = VERY_LONG_CTX_MODELS[0]` into each arm. -/
def selectBase (task : String) (inputs : Signals) : Selection :=
  if task = "triage_many_prs" then
    ⟨LLAMA32_3B, some QWEN_CODER_32B, ["batch triage: cheap first-pass"]⟩
  else if task = "review_pr" then
    if inputs.needsVeryLongContext = true ∨ largeOrMulti inputs then
      ⟨if inputs.needsVeryLongContext = true then veryLongCtxHead else LLAMA4_SCOUT_17B,
       some QWEN_CODER_32B, ["large/multi-file or long context needs"]⟩
    else if smallPr inputs ∧ inputs.budgetSensitive = true then
      ⟨MISTRAL_7B_V01, some QWEN_CODER_32B, ["budget-sensitive small diff"]⟩
    else
      ⟨QWEN_CODER_32B, some LLAMA4_SCOUT_17B, ["standard review"]⟩
  else if task = "deep_audit" then
    if inputs.needReasoningDepth = true then
      ⟨DEEPSEEK_R1_32B,
       some (if inputs.needsVeryLongContext = true then veryLongCtxHead else QWEN_CODER_32B),
       ["max reasoning depth"]⟩
    else
      ⟨QWEN_CODER_32B,
       some (if inputs.needsVeryLongContext = true then veryLongCtxHead else DEEPSEEK_R1_32B),
       ["code-specialized + reasoning fallback"]⟩
  else if task = "repo_summarize" then
    ⟨if inputs.needsVeryLongContext = true then veryLongCtxHead else LLAMA4_SCOUT_17B,
     some QWEN_CODER_32B,
     [String.append "repo-wide synthesis"
        (if inputs.needsVeryLongContext = true then " with long context" else "")]⟩
  else if task = "fallback_general" then
    ⟨if inputs.needsVeryLongContext = true then GPT_OSS_120B else GPT_OSS_120B,
     some QWEN_CODER_32B, ["general fallback to high-capability model"]⟩
  else
    ⟨DEFAULT_MODEL, none, []⟩

/-- First post-selection nudge: `if budget_sensitive: if primary in
[LLAMA4_SCOUT_17B, GPT_OSS_120B]: primary = QWEN_CODER_32B`. -/
def budgetNudge (inputs : Signals) (sel : Selection) : Selection :=
  if inputs.budgetSensitive = true ∧
      (sel.primary = LLAMA4_SCOUT_17B ∨ sel.primary = GPT_OSS_120B) then
    { sel with primary := QWEN_CODER_32B,
               rationale := sel.rationale ++ ["budget-sensitive adjustment"] }
  else sel

/-- Second post-selection nudge: `if low_latency and primary in
ASYNC_QUEUE_MODELS: primary = QWEN_CODER_32B`. -/
def latencyNudge (inputs : Signals) (sel : Selection) : Selection :=
  if inputs.lowLatencyPreferred = true ∧ sel.primary ∈ ASYNC_QUEUE_MODELS then
    { sel with primary := QWEN_CODER_32B,
               rationale := sel.rationale ++ ["low-latency preference"] }
  else sel

/-- The two nudges applied in the order of the Python code. -/
def applyNudges (inputs : Signals) (sel : Selection) : Selection :=
  latencyNudge inputs (budgetNudge inputs sel)

/-- Return value of `simulate_model_selection`. -/
structure Decision where
  primary : String
  fallback : Option String
  embeddings : String
  reranker : String
  rationale : String
deriving Repr, DecidableEq

/-- Full model-selection simulation, mirroring `simulate_model_selection` in
`src/tests/test_ai_model_selection.py`. -/
def simulate_model_selection (task : String) (inputs : Signals) : Decision :=
  let sel := applyNudges inputs (selectBase task inputs)
  ⟨sel.primary, sel.fallback, "@cf/baai/bge-m3", "@cf/baai/bge-reranker-base",
   if sel.rationale = [] then "default policy" else String.intercalate " | " sel.rationale⟩

example :
    (simulate_model_selection "triage_many_prs" {}).primary = LLAMA32_3B := by decide

example :
    (simulate_model_selection "review_pr" { diffLinesChanged := 150, filesChanged := 2 }).primary
      = QWEN_CODER_32B := by decide

example :
    (simulate_model_selection "review_pr"
      { diffLinesChanged := 100, filesChanged := 1, budgetSensitive := true }).primary
      = MISTRAL_7B_V01 := by decide

example :
    (simulate_model_selection "deep_audit"
      { diffLinesChanged := 500, filesChanged := 5, needReasoningDepth := true }).primary
      = DEEPSEEK_R1_32B := by decide

example :
    (simulate_model_selection "fallback_general" {}).primary = GPT_OSS_120B := by decide

example :
    simulate_model_selection "unknown_task" { diffLinesChanged := 200 }
      = ⟨DEFAULT_MODEL, none, "@cf/baai/bge-m3", "@cf/baai/bge-reranker-base",
         "default policy"⟩ := by decide

example :
    (simulate_model_selection "review_pr"
      { needsVeryLongContext := true, budgetSensitive := true }).primary = QWEN_CODER_32B ∧
    (simulate_model_selection "review_pr"
      { needsVeryLongContext := true, budgetSensitive := true }).fallback
      = some QWEN_CODER_32B := by decide

/-! Language detection, mirroring `_simulate_language_detection` in
`src/tests/test_orchestrator.py`.  Content is a list of characters; the two
regular expressions used there are pure character-class / literal-substring
alternations, embedded as such. -/

/-- Result dict of `_simulate_language_detection`. -/
structure LanguageResult where
  detectedLanguage : String
  needsTranslation : Bool
  confidence : ℚ
deriving Repr, DecidableEq

/-- Character class of the regex `[你好世界中文]`. -/
def chineseCharSet : List Char := ['你', '好', '世', '界', '中', '文']

/-- Character class in the regex `[áéíóúñ¡¿]|función|código`. -/
def spanishCharSet : List Char := ['á', 'é', 'í', 'ó', 'ú', 'ñ', '¡', '¿']

/-- Literal alternative `función` of the Spanish regex. -/
def funcionChars : List Char := ['f', 'u', 'n', 'c', 'i', 'ó', 'n']

/-- Literal `código`, used both in the Spanish regex and in the Python
substring test of the mixed branch. -/
def codigoChars : List Char := ['c', 'ó', 'd', 'i', 'g', 'o']

/-- Literal `function`, used in the substring test of the mixed branch. -/
def functionChars : List Char := ['f', 'u', 'n', 'c', 't', 'i', 'o', 'n']

/-- Whether some character of `content` lies in the character class `cs`;
this is `re.search` of a character-class regex. -/
def matchesCharClass (cs content : List Char) : Bool :=
  content.any (fun c => cs.contains c)

/-- Whether `p` is a leading run of `s`. -/
def leadsList : List Char → List Char → Bool
  | [], _ => true
  | _ :: _, [] => false
  | c :: cs, d :: ds => c = d && leadsList cs ds

/-- Whether `p` occurs contiguously inside `s`; this is the Python
`p in s` substring test on strings. -/
def containsSub (p : List Char) : List Char → Bool
  | [] => decide (p = [])
  | d :: ds => leadsList p (d :: ds) || containsSub p ds

/-- Language detection heuristic of `_simulate_language_detection`: the
Chinese character-class regex, then the Spanish regex
`[áéíóúñ¡¿]|función|código`, then the mixed test
`'código' in content and 'function' in content`, else English. -/
def simulate_language_detection (content : List Char) : LanguageResult :=
  if matchesCharClass chineseCharSet content = true then
    ⟨"chinese", true, 0.85⟩
  else if (matchesCharClass spanishCharSet content || containsSub funcionChars content ||
      containsSub codigoChars content) = true then
    ⟨"spanish", true, 0.82⟩
  else if (containsSub codigoChars content && containsSub functionChars content) = true then
    ⟨"mixed", false, 0.65⟩
  else
    ⟨"english", false, 0.9⟩

example : (simulate_language_detection []).detectedLanguage = "english" := by decide

example : (simulate_language_detection ['你']).detectedLanguage = "chinese" := by decide

example :
    (simulate_language_detection ['c', 'ó', 'd', 'i', 'g', 'o']).detectedLanguage
      = "spanish" := by decide

/-! Cache-usage helper, mirroring `_was_cache_used` in
`src/tests/test_orchestrator.py`.  The requests there are dicts carrying a
`task` and a `diff_lines` entry. -/

/-- Request dict as built by `test_caching_mechanism`. -/
structure CacheRequest where
  task : String
  diffLines : Int
deriving Repr, DecidableEq

/-- Python: `return request1.get("task") == request2.get("task")`. -/
def was_cache_used (request1 request2 : CacheRequest) : Bool :=
  request1.task == request2.task

/-! Single-flight decision cache. -/

/-- Modelled from the spec: the Decision Cache of §4.5/§5 (`getOrCompute`
with single-flight semantics and a 300-second TTL) has no implementation
under `src/`; the tests only stub it (`_simulate_cached_request`).  The model
is an event-interleaving state machine: per-key entry states, `req k t`
events for concurrent `getOrCompute` arrivals at time `t`, and `done k v t`
events for completion of the in-flight computation.  A requester that finds
an in-flight entry joins it (blocks/awaits) instead of recomputing;
`computeCount` counts invocations of the underlying compute function. -/
inductive EntryState where
  | empty : EntryState
  | inFlight : EntryState
  | cached : String → ℕ → EntryState
deriving Repr, DecidableEq

/-- Cache state: per-key entry plus per-key count of compute invocations. -/
structure CacheState where
  entry : String → EntryState
  computeCount : String → ℕ

/-- Events: a request (`getOrCompute` arrival) or a computation completion. -/
inductive CacheEvent where
  | req : String → ℕ → CacheEvent
  | done : String → String → ℕ → CacheEvent
deriving Repr, DecidableEq

/-- TTL of cache entries, fixed at 300 seconds by the spec. -/
def CACHE_TTL : ℕ := 300

/-- Initial cache: no entries, no computations. -/
def initCache : CacheState := ⟨fun _ => .empty, fun _ => 0⟩

def setEntry (s : CacheState) (k : String) (e : EntryState) : CacheState :=
  { s with entry := fun q => if q = k then e else s.entry q }

def bumpCount (s : CacheState) (k : String) : CacheState :=
  { s with computeCount := fun q => if q = k then s.computeCount q + 1 else s.computeCount q }

/-- One step of the cache: a request on an absent or expired entry starts a
computation (marking the key in-flight); a request on an in-flight entry
joins it; a request on a fresh cached entry is a hit; a completion turns the
in-flight marker into a cached value stamped with the completion time. -/
def stepCache (s : CacheState) (ev : CacheEvent) : CacheState :=
  match ev with
  | .req k t =>
    match s.entry k with
    | .empty => bumpCount (setEntry s k .inFlight) k
    | .inFlight => s
    | .cached _ t0 => if t ≤ t0 + CACHE_TTL then s else bumpCount (setEntry s k .inFlight) k
  | .done k v t =>
    match s.entry k with
    | .inFlight => setEntry s k (.cached v t)
    | _ => s

/-- Run a whole interleaving of cache events from the empty cache. -/
def runCache (evs : List CacheEvent) : CacheState := evs.foldl stepCache initCache

def eventKey : CacheEvent → String
  | .req k _ => k
  | .done k _ _ => k

def eventTime : CacheEvent → ℕ
  | .req _ t => t
  | .done _ _ t => t

def isReq : CacheEvent → Bool
  | .req _ _ => true
  | .done _ _ _ => false

example :
    (runCache [.req "a" 1, .req "a" 2, .done "a" "v" 3, .req "a" 4]).computeCount "a"
      = 1 := by decide

example :
    (runCache [.req "a" 1, .done "a" "v" 3, .req "a" 400]).computeCount "a" = 2 := by decide

/-- Invariant of the single-flight cache once the first request for key `k`
has arrived inside the window starting at `t0`: exactly one computation has
been triggered, and the key is either still in flight or cached at a
timestamp not earlier than `t0`. -/
def CacheInv (k : String) (t0 : ℕ) (s : CacheState) : Prop :=
  s.computeCount k = 1 ∧
    (s.entry k = .inFlight ∨ ∃ v tc, s.entry k = .cached v tc ∧ t0 ≤ tc)

/-- Concrete interleaving used to instantiate the single-flight theorem:
three requests for key `a`, the completion of the first one in between. -/
def demoEvents : List CacheEvent :=
  [.req "a" 1, .req "a" 2, .done "a" "v" 3, .req "a" 4]

/-! Theorems. -/

/-- C1 counterexample: for `review_pr` with `needsVeryLongContext` and
`budgetSensitive` both set, the branch rules pick the long-context backend
with the code-specialized backend as fallback, and the budget-sensitive
nudge then demotes the primary onto that very fallback, so the final
decision has `fallback` equal to `primary`. -/
theorem nudged_primary_equals_fallback :
    (simulate_model_selection "review_pr"
      { needsVeryLongContext := true, budgetSensitive := true }).primary = QWEN_CODER_32B ∧
    (simulate_model_selection "review_pr"
      { needsVeryLongContext := true, budgetSensitive := true }).fallback
      = some QWEN_CODER_32B := by decide

/-- C1 (amended): before the post-selection nudges are applied, the fallback
backend id chosen by the branch rules is never equal to the primary backend
id, for every task type and every signal set. -/
theorem prenudge_fallback_ne_primary (task : String) (s : Signals) :
    (selectBase task s).fallback ≠ some ((selectBase task s).primary) := by
  unfold selectBase
  repeat' split
  all_goals decide

/-- C1 witness: the amended pre-nudge distinctness instantiated at a
concrete task and signal set. -/
theorem prenudge_fallback_ne_primary_witness :
    (selectBase "triage_many_prs" {}).fallback
      ≠ some ((selectBase "triage_many_prs" {}).primary) :=
  prenudge_fallback_ne_primary "triage_many_prs" {}

/-- C2: the code routes the unrecognized task type `unknown_task` to the
initial defaults, not to the `fallback_general` branch: primary stays the
default code-specialized backend, `fallback` is left unset (`none`), and the
rationale is the empty-rationale placeholder, diverging from the spec and
from the expectations of `test_edge_cases_and_fallbacks`. -/
theorem unknown_task_defaults_without_fallback :
    simulate_model_selection "unknown_task" { diffLinesChanged := 200 }
      = ⟨DEFAULT_MODEL, none, "@cf/baai/bge-m3", "@cf/baai/bge-reranker-base",
         "default policy"⟩ ∧
    DEFAULT_MODEL ≠ GPT_OSS_120B := by decide

/-- C3 counterexample: for `review_pr` with `needsVeryLongContext = true`
but `lowLatencyPreferred = true`, the low-latency nudge demotes the primary
away from the long-context backend, so the primary is not
`llama-4-scout-17b` despite the long-context need. -/
theorem long_context_review_demoted_by_latency :
    (simulate_model_selection "review_pr"
      { needsVeryLongContext := true, lowLatencyPreferred := true }).primary
      ≠ LLAMA4_SCOUT_17B := by decide

/-- C3 (amended): for `review_pr` with `needsVeryLongContext = true`, the
primary backend is the long-context backend `llama-4-scout-17b` regardless
of diff size and of the other signals, provided neither post-selection nudge
fires, i.e. `budgetSensitive` and `lowLatencyPreferred` are both false. -/
theorem review_long_context_primary_scout (s : Signals)
    (hc : s.needsVeryLongContext = true) (hb : s.budgetSensitive = false)
    (hl : s.lowLatencyPreferred = false) :
    (simulate_model_selection "review_pr" s).primary = LLAMA4_SCOUT_17B := by
  obtain ⟨d, f, i, c, r, b, l⟩ := s
  simp only at hc hb hl
  subst hc hb hl
  simp [simulate_model_selection, applyNudges, latencyNudge, budgetNudge, selectBase,
        largeOrMulti, smallPr, veryLongCtxHead, VERY_LONG_CTX_MODELS, DEFAULT_MODEL]

/-- C3 witness: the amended statement instantiated at a concrete signal
set. -/
theorem review_long_context_primary_scout_witness :
    (simulate_model_selection "review_pr"
      { diffLinesChanged := 10, needsVeryLongContext := true }).primary
      = LLAMA4_SCOUT_17B :=
  review_long_context_primary_scout
    { diffLinesChanged := 10, needsVeryLongContext := true } rfl rfl rfl

/-- C6: for `triage_many_prs` the final primary backend is always the batch
backend `llama-3.2-3b`, for every signal set: the branch rule fixes it and
neither the budget-sensitive nor the low-latency nudge applies to it. -/
theorem triage_primary_always_llama32 (s : Signals) :
    (simulate_model_selection "triage_many_prs" s).primary = LLAMA32_3B := by
  simp [simulate_model_selection, applyNudges, latencyNudge, budgetNudge, selectBase,
        LLAMA32_3B, LLAMA4_SCOUT_17B, GPT_OSS_120B, ASYNC_QUEUE_MODELS, LLAMA33_70B_FAST]

/-- Helper: whenever `lowLatencyPreferred` is set, the latency nudge leaves
no async-queued backend as primary. -/
theorem latencyNudge_no_async (s : Signals) (sel : Selection)
    (h : s.lowLatencyPreferred = true) :
    (latencyNudge s sel).primary ∉ ASYNC_QUEUE_MODELS := by
  unfold latencyNudge
  split
  · intro hmem
    simp only [] at hmem
    revert hmem
    decide
  · rename_i hn
    intro hmem
    exact hn ⟨h, hmem⟩

/-- C7: for every task type and every signal set with
`lowLatencyPreferred = true`, the final primary backend is not an
async-queued backend; moreover for `review_pr` with `diffLinesChanged = 500`
the pre-nudge primary is the async-queued `llama-4-scout-17b`, and setting
`lowLatencyPreferred = true` changes the final primary to the non-async
`qwen-coder-32b`. -/
theorem low_latency_never_async_primary :
    (∀ (task : String) (s : Signals), s.lowLatencyPreferred = true →
      (simulate_model_selection task s).primary ∉ ASYNC_QUEUE_MODELS) ∧
    (selectBase "review_pr" { diffLinesChanged := 500 }).primary ∈ ASYNC_QUEUE_MODELS ∧
    (simulate_model_selection "review_pr"
      { diffLinesChanged := 500, lowLatencyPreferred := true }).primary
      = QWEN_CODER_32B := by
  refine ⟨fun task s h => ?_, by decide, by decide⟩
  exact latencyNudge_no_async s (budgetNudge s (selectBase task s)) h

/-- C7 witness: the universal part instantiated at `repo_summarize` with a
signal set whose pre-nudge primary is async-queued. -/
theorem low_latency_never_async_primary_witness :
    (simulate_model_selection "repo_summarize"
      { lowLatencyPreferred := true }).primary ∉ ASYNC_QUEUE_MODELS :=
  low_latency_never_async_primary.1 "repo_summarize" { lowLatencyPreferred := true } rfl

/-- C5: negative numeric signals never make the evaluator fail (it is a
total function) and yield the same decision as the signals clamped to 0; in
particular `review_pr` with `diffLinesChanged = -100`, `filesChanged = -5`
lands in the zero-diff standard-review branch. -/
theorem negative_signals_behave_as_zero :
    (∀ (task : String) (s : Signals), s.diffLinesChanged ≤ 0 → s.filesChanged ≤ 0 →
      simulate_model_selection task s
        = simulate_model_selection task { s with diffLinesChanged := 0, filesChanged := 0 }) ∧
    simulate_model_selection "review_pr" { diffLinesChanged := -100, filesChanged := -5 }
      = ⟨QWEN_CODER_32B, some LLAMA4_SCOUT_17B, "@cf/baai/bge-m3",
         "@cf/baai/bge-reranker-base", "standard review"⟩ := by
  refine ⟨fun task s hd hf => ?_, by decide⟩
  obtain ⟨d, f, i, c, r, b, l⟩ := s
  simp only at hd hf
  have h1 : ¬ ((0 : ℤ) < d) := by omega
  have h2 : ¬ ((300 : ℤ) ≤ d) := by omega
  have h3 : ¬ ((5 : ℤ) ≤ f) := by omega
  simp [simulate_model_selection, applyNudges, latencyNudge, budgetNudge, selectBase,
        largeOrMulti, smallPr, h1, h2, h3, SMALL_PR_LINES, LARGE_PR_FILES]

/-- C5 witness: the universal part instantiated at a concrete negative
signal set. -/
theorem negative_signals_behave_as_zero_witness :
    simulate_model_selection "review_pr" { diffLinesChanged := -100, filesChanged := -5 }
      = simulate_model_selection "review_pr" { diffLinesChanged := 0, filesChanged := 0 } :=
  negative_signals_behave_as_zero.1 "review_pr"
    { diffLinesChanged := -100, filesChanged := -5 } (by decide) (by decide)

/-- C4 counterexample: on empty text the language detector does not return
`unknown` with confidence 0; it falls through to the English default
branch. -/
theorem empty_text_not_unknown :
    ¬ ((simulate_language_detection []).detectedLanguage = "unknown" ∧
       (simulate_language_detection []).needsTranslation = false ∧
       (simulate_language_detection []).confidence = 0) := by
  intro h
  exact absurd h.1 (by decide)

/-- C4 (amended): on empty text the language detector returns
`language = "english"`, `needsTranslation = false`, `confidence = 0.9`,
because no branch guards against empty content and the default branch
applies. -/
theorem empty_text_detects_english :
    simulate_language_detection [] = ⟨"english", false, 0.9⟩ := rfl

/-- C8 counterexample: two requests with the same task type but different
`diffLinesChanged` are distinct requests, yet the cache-usage check reports
a hit for them. -/
theorem cache_hit_despite_different_diff :
    was_cache_used ⟨"review_pr", 200⟩ ⟨"review_pr", 999⟩ = true ∧
    (⟨"review_pr", 200⟩ : CacheRequest) ≠ ⟨"review_pr", 999⟩ := by decide

/-- C8 (amended): two requests share a cache entry exactly when their task
types are equal; the signals (such as `diffLinesChanged`) are not part of
the cache key at all. -/
theorem cache_key_is_task_only (request1 request2 : CacheRequest) :
    was_cache_used request1 request2 = true ↔ request1.task = request2.task := by
  simp [was_cache_used]

/-- C8 witness: the amended cache-key statement instantiated at concrete
requests. -/
theorem cache_key_is_task_only_witness :
    was_cache_used ⟨"deep_audit", 1⟩ ⟨"deep_audit", 2⟩ = true
      ↔ ("deep_audit" : String) = "deep_audit" :=
  cache_key_is_task_only ⟨"deep_audit", 1⟩ ⟨"deep_audit", 2⟩

/-- C10: the language detector never returns `mixed`: the mixed branch
requires content containing `código`, which already matches the earlier
Spanish alternation, so the result is always one of `chinese`, `spanish`,
`english`. -/
theorem language_never_mixed (content : List Char) :
    (simulate_language_detection content).detectedLanguage ≠ "mixed" ∧
    ((simulate_language_detection content).detectedLanguage = "chinese" ∨
     (simulate_language_detection content).detectedLanguage = "spanish" ∨
     (simulate_language_detection content).detectedLanguage = "english") := by
  unfold simulate_language_detection
  split
  · exact ⟨by decide, Or.inl rfl⟩
  split
  · exact ⟨by decide, Or.inr (Or.inl rfl)⟩
  split
  · rename_i hspan hmix
    exfalso
    rw [Bool.and_eq_true] at hmix
    apply hspan
    simp [hmix.1]
  · exact ⟨by decide, Or.inr (Or.inr rfl)⟩

/-- Helper: one cache step inside the TTL window preserves the single-flight
invariant, so no second computation is ever triggered. -/
theorem stepCache_preserves_inv (k : String) (t0 : ℕ) (s : CacheState) (ev : CacheEvent)
    (hk : eventKey ev = k)
    (ht : t0 ≤ eventTime ev ∧ eventTime ev ≤ t0 + CACHE_TTL)
    (hinv : CacheInv k t0 s) : CacheInv k t0 (stepCache s ev) := by
  obtain ⟨hc, hentry⟩ := hinv
  cases ev with
  | req k2 t =>
    simp only [eventKey] at hk
    simp only [eventTime] at ht
    subst hk
    rcases hentry with he | ⟨v, tc, he, htc⟩
    · simp only [stepCache, he]
      exact ⟨hc, Or.inl he⟩
    · have hfresh : t ≤ tc + CACHE_TTL :=
        Nat.le_trans ht.2 (Nat.add_le_add_right htc CACHE_TTL)
      simp only [stepCache, he, if_pos hfresh]
      exact ⟨hc, Or.inr ⟨v, tc, he, htc⟩⟩
  | done k2 v t =>
    simp only [eventKey] at hk
    simp only [eventTime] at ht
    subst hk
    rcases hentry with he | ⟨v2, tc, he, htc⟩
    · simp only [stepCache, he, setEntry]
      exact ⟨hc, Or.inr ⟨v, t, by simp, ht.1⟩⟩
    · simp only [stepCache, he]
      exact ⟨hc, Or.inr ⟨v2, tc, he, htc⟩⟩

/-- Helper: the single-flight invariant is preserved along any trace of
same-key events inside the TTL window. -/
theorem foldl_preserves_inv (k : String) (t0 : ℕ) :
    ∀ (evs : List CacheEvent) (s : CacheState),
      (∀ e ∈ evs, eventKey e = k) →
      (∀ e ∈ evs, t0 ≤ eventTime e ∧ eventTime e ≤ t0 + CACHE_TTL) →
      CacheInv k t0 s → CacheInv k t0 (evs.foldl stepCache s)
  | [], _, _, _, hinv => hinv
  | e :: evs, s, hk, ht, hinv => by
    simp only [List.foldl_cons]
    exact foldl_preserves_inv k t0 evs (stepCache s e)
      (fun x hx => hk x (List.mem_cons_of_mem e hx))
      (fun x hx => ht x (List.mem_cons_of_mem e hx))
      (stepCache_preserves_inv k t0 s e (hk e (List.mem_cons_self _ _))
        (ht e (List.mem_cons_self _ _)) hinv)

/-- Helper: starting from a state where key `k` is absent and uncomputed,
a trace of same-key events inside the TTL window either contains no request
and leaves `k` absent and uncomputed, or contains a request and establishes
the single-flight invariant. -/
theorem foldl_from_empty (k : String) (t0 : ℕ) :
    ∀ (evs : List CacheEvent) (s : CacheState),
      (∀ e ∈ evs, eventKey e = k) →
      (∀ e ∈ evs, t0 ≤ eventTime e ∧ eventTime e ≤ t0 + CACHE_TTL) →
      s.entry k = .empty → s.computeCount k = 0 →
      (evs.filter isReq = [] →
        (evs.foldl stepCache s).entry k = .empty ∧
        (evs.foldl stepCache s).computeCount k = 0) ∧
      (evs.filter isReq ≠ [] → CacheInv k t0 (evs.foldl stepCache s))
  | [], s, _, _, he, hc => by
    refine ⟨fun _ => ⟨he, hc⟩, fun habs => absurd rfl habs⟩
  | e :: evs, s, hk, ht, he, hc => by
    have hkey := hk e (List.mem_cons_self _ _)
    have htime := ht e (List.mem_cons_self _ _)
    have hkrest : ∀ x ∈ evs, eventKey x = k :=
      fun x hx => hk x (List.mem_cons_of_mem e hx)
    have htrest : ∀ x ∈ evs, t0 ≤ eventTime x ∧ eventTime x ≤ t0 + CACHE_TTL :=
      fun x hx => ht x (List.mem_cons_of_mem e hx)
    cases e with
    | done k2 v t =>
      simp only [eventKey] at hkey
      subst k2
      have hstep : stepCache s (.done k v t) = s := by
        simp only [stepCache, he]
      have hfilter : (CacheEvent.done k v t :: evs).filter isReq = evs.filter isReq := by
        simp [List.filter_cons, isReq]
      rw [List.foldl_cons, hstep, hfilter]
      exact foldl_from_empty k t0 evs s hkrest htrest he hc
    | req k2 t =>
      simp only [eventKey] at hkey
      subst k2
      have hstep : stepCache s (.req k t) = bumpCount (setEntry s k .inFlight) k := by
        simp only [stepCache, he]
      have hinv : CacheInv k t0 (bumpCount (setEntry s k .inFlight) k) := by
        refine ⟨?_, Or.inl ?_⟩
        · simp [bumpCount, setEntry, hc]
        · simp [bumpCount, setEntry]
      have hrest := foldl_preserves_inv k t0 evs _ hkrest htrest hinv
      have hfilter : (CacheEvent.req k t :: evs).filter isReq
          = CacheEvent.req k t :: evs.filter isReq := by
        simp [List.filter_cons, isReq]
      rw [List.foldl_cons, hstep, hfilter]
      exact ⟨fun habs => absurd habs (List.cons_ne_nil _ _), fun _ => hrest⟩

/-- C9 (modelled from the spec, see `EntryState`): in any interleaving of
`N ≥ 1` concurrent `getOrCompute` requests for the same key `k`, all inside
one TTL window, together with completion events, the underlying compute
function is invoked exactly once; requesters arriving while the computation
is in flight join it instead of recomputing. -/
theorem single_flight_compute_once (k : String) (t0 : ℕ) (evs : List CacheEvent)
    (hk : ∀ e ∈ evs, eventKey e = k)
    (ht : ∀ e ∈ evs, t0 ≤ eventTime e ∧ eventTime e ≤ t0 + CACHE_TTL)
    (hreq : 0 < (evs.filter isReq).length) :
    (runCache evs).computeCount k = 1 := by
  have hne : evs.filter isReq ≠ [] := by
    intro habs
    rw [habs] at hreq
    exact Nat.lt_irrefl 0 hreq
  have h := (foldl_from_empty k t0 evs initCache hk ht rfl rfl).2 hne
  exact h.1

/-- C9 witness: the single-flight theorem instantiated on a concrete
interleaving of three requests and one completion. -/
theorem single_flight_compute_once_witness :
    (runCache demoEvents).computeCount "a" = 1 :=
  single_flight_compute_once "a" 0 demoEvents (by decide) (by decide) (by decide)

end GhBot
